import Mathlib

/-
  Verification of the STT_site upload-and-transcribe pipeline.

  Shallow embedding of the two revisions of the HTTP handler:
  - src/api/function_app.py (namespace FunctionApp): decode, upload, submit,
    bounded poll (30 polls, 10 s interval), enrichment with degradation.
  - src/api/app.py (namespace App): upload, submit, unbounded poll loop.

  External calls (object store, speech service, language service) are
  modelled by environment records holding the outcome of each call: a
  returned value or a raised exception message.
-/

/-- An uploaded multipart file: declared filename plus raw content bytes. -/
structure UploadedFile where
  filename : String
  content : List Nat
  deriving Repr, DecidableEq

/-- One recognized phrase of a transcript: the best display text
(nBest[0].display, defaulting to the empty string) and the optional
key_phrases entry (absent until the enrichment loop writes it). -/
structure Phrase where
  display : String
  keyPhrases : Option (List String) := none
  deriving Repr, DecidableEq

/-- A transcript JSON body as fetched from the content URL: its
recognizedPhrases list (empty if the key is absent). -/
structure Transcript where
  recognizedPhrases : List Phrase
  deriving Repr, DecidableEq

/-- HTTP response body shapes the two handlers produce. -/
inductive Body where
  /-- json.dumps of an object with a single error field. -/
  | jsonError (msg : String)
  /-- app.py success body: json.dumps of an object with a transcription field. -/
  | jsonTranscription (t : Transcript)
  /-- function_app.py success body: summary plus annotated phrases. -/
  | jsonEnriched (summary : String) (phrases : List Phrase)
  /-- function_app.py degraded body: json.dumps of the transcript dict. -/
  | jsonTranscript (t : Transcript)
  /-- A plain-text (non-JSON) body. -/
  | text (s : String)
  deriving Repr, DecidableEq

/-- Whether a body is a structured JSON error object. -/
def Body.isJsonError : Body → Bool
  | .jsonError _ => true
  | _ => false

/-- An HTTP response: status code and body. -/
structure HttpResponse where
  status : Nat
  body : Body
  deriving Repr, DecidableEq

/-- Counters for the externally visible effects of one handler run. -/
structure Effects where
  blobUploads : Nat
  jobSubmissions : Nat
  statusPolls : Nat
  deriving Repr, DecidableEq

/-- A handler run: the HTTP response together with its effects. -/
structure RunResult where
  response : HttpResponse
  effects : Effects
  deriving Repr, DecidableEq

/-- Outcome of one status GET: either the request or JSON parsing raises,
or a parsed body whose status field is the given optional string and whose
embedded error detail (properties.error) is the given optional string. -/
inductive PollStep where
  | raises (msg : String)
  | status (st : Option String) (detail : Option String)
  deriving Repr, DecidableEq

/-- A status response that is present and neither Succeeded nor Failed. -/
def PollStep.isNonTerminal : PollStep → Bool
  | .raises _ => false
  | .status st _ => decide (st ≠ some "Succeeded") && decide (st ≠ some "Failed")

/-- Environment of a poll loop: the outcome of the i-th status request, and
the combined outcome of the manifest fetch, content fetch and JSON parse
performed on a Succeeded status. -/
structure PollEnv where
  step : Nat → PollStep
  onSucceeded : Except String Transcript

/-- Result of function_app.py's poll helper: the Python function returns the
transcript dict, returns None (both on Failed and on bound exhaustion), or
lets an exception propagate. -/
inductive PollRes where
  | timeoutOrFailed
  | got (t : Transcript)
  | raised (msg : String)
  deriving Repr, DecidableEq

/-- time.sleep(10) before each status request. -/
def pollIntervalSeconds : Nat := 10

/-- Loop bound of poll_for_stt_result: while poll_count < 30. -/
def maxPollCount : Nat := 30

/-- SAS URL lifetime: expiry = now + timedelta(hours=1). -/
def sasExpirySeconds : Nat := 3600

/-- Outcome of one language-service call: a value, a per-document error flag
in the response, or a raised exception. -/
inductive CallOut (α : Type) where
  | ok (a : α)
  | isError
  | raises (msg : String)

/-- Environment of the enrichment stage: whether the client constructor
raises, the outcome of the document summary call, and the outcome of the
i-th key-phrase call that is actually issued. -/
structure EnrichEnv where
  ctor : Option String
  summaryCall : CallOut String
  keyPhraseCall : Nat → CallOut (List String)

/-- Whether a Python string is falsy after strip(): all characters are
whitespace. -/
def isBlank (s : String) : Bool := s.data.all fun c => c.isWhitespace

/-- Join a list of strings with the given separator between elements. -/
def joinWith (sep : String) : List String → String
  | [] => ""
  | [s] => s
  | s :: rest => s ++ sep ++ joinWith sep rest

/-- The whole-document text: displays joined with single spaces. -/
def fullText (t : Transcript) : String :=
  joinWith " " (t.recognizedPhrases.map Phrase.display)

/-- The summary value: skipped (empty) when the joined text is blank, the
joined sentences on success, empty on a flagged per-document error, and an
exception otherwise. -/
def summaryOf (env : EnrichEnv) (t : Transcript) : Except Unit String :=
  if isBlank (fullText t) = true then .ok ""
  else
    match env.summaryCall with
    | .ok s => .ok s
    | .isError => .ok ""
    | .raises _ => .error ()

/-- The per-phrase key-phrase loop. Each phrase with non-blank display text
triggers one call; on success or a flagged error the phrase dict is mutated
in place with a key_phrases entry; a raised exception aborts the loop,
leaving earlier phrases mutated and the current and later ones untouched.
Blank phrases get an empty key_phrases entry without a call. -/
def annotatePhrases (kp : Nat → CallOut (List String)) : Nat → List Phrase → Except (List Phrase) (List Phrase)
  | _, [] => .ok []
  | i, p :: rest =>
    if isBlank p.display = true then
      match annotatePhrases kp i rest with
      | .ok l => .ok ({ p with keyPhrases := some [] } :: l)
      | .error l => .error ({ p with keyPhrases := some [] } :: l)
    else
      match kp i with
      | .raises _ => .error (p :: rest)
      | .ok ks =>
        match annotatePhrases kp (i + 1) rest with
        | .ok l => .ok ({ p with keyPhrases := some ks } :: l)
        | .error l => .error ({ p with keyPhrases := some ks } :: l)
      | .isError =>
        match annotatePhrases kp (i + 1) rest with
        | .ok l => .ok ({ p with keyPhrases := some [] } :: l)
        | .error l => .error ({ p with keyPhrases := some [] } :: l)

/-- Whether some key-phrase call of the loop raises. -/
def anyKeyPhraseRaise (kp : Nat → CallOut (List String)) : Nat → List Phrase → Bool
  | _, [] => false
  | i, p :: rest =>
    if isBlank p.display = true then anyKeyPhraseRaise kp i rest
    else
      match kp i with
      | .raises _ => true
      | .ok _ => anyKeyPhraseRaise kp (i + 1) rest
      | .isError => anyKeyPhraseRaise kp (i + 1) rest

/-- Whether the enrichment stage ends in its except branch: the client
constructor, the summary call, or some key-phrase call raises. -/
def enrichRaises (env : EnrichEnv) (t : Transcript) : Bool :=
  env.ctor.isSome ||
  (match summaryOf env t with | .error _ => true | .ok _ => false) ||
  anyKeyPhraseRaise env.keyPhraseCall 0 t.recognizedPhrases

/-- Drop every key_phrases entry, recovering the phrases as fetched. -/
def clearKeyPhrases (ps : List Phrase) : List Phrase :=
  ps.map fun p => { p with keyPhrases := none }

/-- The enrichment stage of function_app.py on a fetched transcript: on any
raised exception it returns 200 with the (possibly partially mutated)
transcript dict; otherwise 200 with summary and annotated phrases. -/
def enrichStage (env : EnrichEnv) (t : Transcript) : HttpResponse :=
  match env.ctor with
  | some _ => ⟨200, .jsonTranscript t⟩
  | none =>
    match summaryOf env t with
    | .error _ => ⟨200, .jsonTranscript t⟩
    | .ok summary =>
      match annotatePhrases env.keyPhraseCall 0 t.recognizedPhrases with
      | .error l => ⟨200, .jsonTranscript ⟨l⟩⟩
      | .ok l => ⟨200, .jsonEnriched summary l⟩

/-- Characters of the last dot-separated component of a character list. -/
def extChars : List Char → List Char → List Char
  | cur, [] => cur
  | cur, c :: rest => if c = '.' then extChars [] rest else extChars (cur ++ [c]) rest

/-- The extension a filename declares: its last dot-separated component. -/
def extOf (name : String) : String := ⟨extChars [] name.data⟩

/-- Container/codec extensions the specification lists as the required
minimum support (spec section 4.1: MP3, WAV, M4A/AAC). -/
def supportedExtensions : List String := ["mp3", "wav", "m4a", "aac"]

namespace FunctionApp

/-- Error message of the audio-decode except branch. -/
def decodeErrorMsg : String := "오디오 파일을 처리할 수 없습니다. 파일이 손상되었거나 지원되지 않는 형식일 수 있습니다."

/-- Error message for a request without a file field. -/
def noFileMsg : String := "요청에 파일이 포함되지 않았습니다."

/-- Message of the exception raised when poll_for_stt_result returns None. -/
def sttTimeoutOrFailedMsg : String := "STT 작업 시간 초과 또는 실패"

/-- Prefix of the exception raised on a non-201 job-creation response. -/
def speechApiErrPre : String := "Speech API 오류: "

/-- Rendering of the KeyError raised when the Location header is absent. -/
def locationKeyErrorMsg : String := "Location"

/-- Prefix of the missing-environment-variable error message. -/
def cfgErrPre : String := "설정 오류: "

/-- Suffix of the missing-environment-variable error message. -/
def cfgErrSuf : String := " 환경 변수가 누락되었습니다."

/-- Prefix of the FFmpeg setup error message. -/
def ffmpegErrPre : String := "서버 환경 설정 오류 (FFmpeg): "

/-- Body of poll_for_stt_result: up to the given remaining iterations, issue
the status request with the given index, returning the poll outcome and the
number of status requests performed. -/
def pollAux (env : PollEnv) : Nat → Nat → PollRes × Nat
  | _, 0 => (.timeoutOrFailed, 0)
  | i, r + 1 =>
    match env.step i with
    | .raises m => (.raised m, 1)
    | .status st _ =>
      if st = some "Succeeded" then
        match env.onSucceeded with
        | .ok t => (.got t, 1)
        | .error m => (.raised m, 1)
      else if st = some "Failed" then (.timeoutOrFailed, 1)
      else
        let p := pollAux env (i + 1) r
        (p.1, p.2 + 1)

/-- poll_for_stt_result of function_app.py: at most maxPollCount status
requests, returning the outcome and the number of requests performed. -/
def poll_for_stt_result (env : PollEnv) : PollRes × Nat :=
  pollAux env 0 maxPollCount

/-- Environment of one function_app.py request: the request's file field,
the outcome of each external interaction, and the content-based decodability
oracle of the codec library. -/
structure Env where
  envLoad : Except String Unit
  ffmpegSetup : Except String Unit
  file : Option UploadedFile
  decode : List Nat → Bool
  blobUpload : Except String Unit
  createRaises : Option String
  createStatus : Nat
  createText : String
  location : Option String
  pollEnv : PollEnv
  enrich : EnrichEnv

/-- The function_app.py handler upload_and_transcribe: environment-variable
load, FFmpeg setup, file extraction, decode, blob upload plus SAS, job
creation, bounded polling, then enrichment; every except branch yields a
JSON error response. -/
def upload_and_transcribe (env : Env) : RunResult :=
  match env.envLoad with
  | .error k => ⟨⟨500, .jsonError (cfgErrPre ++ k ++ cfgErrSuf)⟩, ⟨0, 0, 0⟩⟩
  | .ok _ =>
    match env.ffmpegSetup with
    | .error m => ⟨⟨500, .jsonError (ffmpegErrPre ++ m)⟩, ⟨0, 0, 0⟩⟩
    | .ok _ =>
      match env.file with
      | none => ⟨⟨400, .jsonError noFileMsg⟩, ⟨0, 0, 0⟩⟩
      | some f =>
        if env.decode f.content then
          match env.blobUpload with
          | .error m => ⟨⟨500, .jsonError m⟩, ⟨1, 0, 0⟩⟩
          | .ok _ =>
            match env.createRaises with
            | some m => ⟨⟨500, .jsonError m⟩, ⟨1, 1, 0⟩⟩
            | none =>
              if env.createStatus ≠ 201 then
                ⟨⟨500, .jsonError (speechApiErrPre ++ env.createText)⟩, ⟨1, 1, 0⟩⟩
              else
                match env.location with
                | none => ⟨⟨500, .jsonError locationKeyErrorMsg⟩, ⟨1, 1, 0⟩⟩
                | some _ =>
                  match poll_for_stt_result env.pollEnv with
                  | (.raised m, n) => ⟨⟨500, .jsonError m⟩, ⟨1, 1, n⟩⟩
                  | (.timeoutOrFailed, n) =>
                    ⟨⟨500, .jsonError sttTimeoutOrFailedMsg⟩, ⟨1, 1, n⟩⟩
                  | (.got t, n) => ⟨enrichStage env.enrich t, ⟨1, 1, n⟩⟩
        else ⟨⟨400, .jsonError decodeErrorMsg⟩, ⟨0, 0, 0⟩⟩

end FunctionApp

namespace App

/-- Rendering of the KeyError raised when the status key is absent. -/
def statusKeyErrorMsg : String := "status"

/-- The unbounded poll loop of app.py, run with the given fuel: none means
the loop is still running after consuming the fuel (one status request per
unit); a missing status key raises a KeyError. -/
inductive AppPollRes where
  | got (t : Transcript)
  | failed
  | raised (msg : String)
  deriving Repr, DecidableEq

/-- One fuel unit per loop iteration, hence per status request. -/
def pollAux (env : PollEnv) : Nat → Nat → Option AppPollRes
  | _, 0 => none
  | i, f + 1 =>
    match env.step i with
    | .raises m => some (.raised m)
    | .status none _ => some (.raised statusKeyErrorMsg)
    | .status (some st) _ =>
      if st = "Succeeded" then
        match env.onSucceeded with
        | .ok t => some (.got t)
        | .error m => some (.raised m)
      else if st = "Failed" then some .failed
      else pollAux env (i + 1) f

/-- Environment of one app.py request. -/
structure Env where
  file : Option UploadedFile
  blobUpload : Except String Unit
  createRaises : Option String
  createStatus : Nat
  createText : String
  location : Option String
  pollEnv : PollEnv

/-- The app.py handler upload_and_transcribe, run with the given poll fuel:
the whole body sits in one try block whose except branch renders the
exception as a plain-text 500 response; none means the handler has not
returned within the fuel. -/
def upload_and_transcribe (env : Env) (fuel : Nat) : Option HttpResponse :=
  match env.file with
  | none => some ⟨400, .text "No file uploaded."⟩
  | some _ =>
    match env.blobUpload with
    | .error m => some ⟨500, .text ("Error: " ++ m)⟩
    | .ok _ =>
      match env.createRaises with
      | some m => some ⟨500, .text ("Error: " ++ m)⟩
      | none =>
        if env.createStatus ≠ 201 then
          some ⟨500, .text ("Transcription error: " ++ env.createText)⟩
        else
          match env.location with
          | none => some ⟨500, .text ("Error: " ++ "Location")⟩
          | some _ =>
            match pollAux env.pollEnv 0 fuel with
            | none => none
            | some (.got t) => some ⟨200, .jsonTranscription t⟩
            | some .failed => some ⟨500, .text "Transcription failed."⟩
            | some (.raised m) => some ⟨500, .text ("Error: " ++ m)⟩

end App

/-
  Concrete fixtures.
-/

/-- A file that decodes. -/
def okFile : UploadedFile := ⟨"a.mp3", [0]⟩

/-- A status stream that always reports Running. -/
def runningPollEnv : PollEnv := ⟨fun _ => .status (some "Running") none, .ok ⟨[]⟩⟩

/-- A status stream whose first response is terminal Failed carrying the
given embedded error detail. -/
def failedPollEnv (d : Option String) : PollEnv := ⟨fun _ => .status (some "Failed") d, .ok ⟨[]⟩⟩

/-- A status stream that immediately reports Succeeded with transcript t. -/
def succeedPollEnv (t : Transcript) : PollEnv := ⟨fun _ => .status (some "Succeeded") none, .ok t⟩

/-- An enrichment environment where every call succeeds. -/
def okEnrich : EnrichEnv := ⟨none, .ok "", fun _ => .ok []⟩

/-- A baseline function_app.py environment where every stage up to polling
succeeds and the job then stays Running. -/
def fnBase : FunctionApp.Env :=
  { envLoad := .ok (), ffmpegSetup := .ok (), file := some okFile,
    decode := fun _ => true, blobUpload := .ok (), createRaises := none,
    createStatus := 201, createText := "", location := some "loc",
    pollEnv := runningPollEnv, enrich := okEnrich }

/-- A baseline app.py environment where every stage up to polling succeeds
and the job then stays Running. -/
def appBase : App.Env :=
  { file := some okFile, blobUpload := .ok (), createRaises := none,
    createStatus := 201, createText := "", location := some "loc",
    pollEnv := runningPollEnv }

example : (FunctionApp.upload_and_transcribe fnBase).response.status = 500 := by decide
example : App.upload_and_transcribe appBase 5 = none := by decide
example : App.upload_and_transcribe { appBase with file := none } 0 =
    some ⟨400, .text "No file uploaded."⟩ := by decide

/-
  Helper lemmas.
-/

/-- When the first r status responses starting at index i are all
non-terminal, the bounded loop consumes its whole budget, performs exactly r
status requests, and returns None. -/
theorem pollAux_nonterminal (env : PollEnv) :
    ∀ (r i : Nat), (∀ j, j < r → (env.step (i + j)).isNonTerminal = true) →
      FunctionApp.pollAux env i r = (.timeoutOrFailed, r) := by
  intro r
  induction r with
  | zero => intro i _; rfl
  | succ r ih =>
    intro i h
    have h0 := h 0 (Nat.succ_pos r)
    unfold FunctionApp.pollAux
    cases hs : env.step i with
    | raises m =>
      rw [Nat.add_zero] at h0
      rw [hs] at h0
      simp [PollStep.isNonTerminal] at h0
    | status st d =>
      rw [Nat.add_zero] at h0
      rw [hs] at h0
      simp only [PollStep.isNonTerminal, Bool.and_eq_true, decide_eq_true_eq] at h0
      dsimp only
      rw [if_neg h0.1, if_neg h0.2]
      have ihh : FunctionApp.pollAux env (i + 1) r = (.timeoutOrFailed, r) := by
        apply ih
        intro j hj
        have e : i + 1 + j = i + (j + 1) := by omega
        rw [e]
        exact h (j + 1) (by omega)
      simp [ihh]

/-- When the first k status responses starting at index i are non-terminal
and response k is terminal Failed, the loop (with budget r > k) performs
exactly k + 1 status requests and returns None. -/
theorem pollAux_failed (env : PollEnv) (d : Option String) :
    ∀ (k r i : Nat), k < r → (∀ j, j < k → (env.step (i + j)).isNonTerminal = true) →
      env.step (i + k) = .status (some "Failed") d →
      FunctionApp.pollAux env i r = (.timeoutOrFailed, k + 1) := by
  intro k
  induction k with
  | zero =>
    intro r i hr _ hfail
    rw [Nat.add_zero] at hfail
    cases r with
    | zero => omega
    | succ r =>
      unfold FunctionApp.pollAux
      rw [hfail]
      dsimp only
      rw [if_neg (by decide : ¬ (some "Failed" = some "Succeeded"))]
      rw [if_pos rfl]
  | succ k ih =>
    intro r i hr hpre hfail
    cases r with
    | zero => omega
    | succ r =>
      have h0 := hpre 0 (Nat.succ_pos k)
      rw [Nat.add_zero] at h0
      unfold FunctionApp.pollAux
      cases hs : env.step i with
      | raises m =>
        rw [hs] at h0
        simp [PollStep.isNonTerminal] at h0
      | status st dd =>
        rw [hs] at h0
        simp only [PollStep.isNonTerminal, Bool.and_eq_true, decide_eq_true_eq] at h0
        dsimp only
        rw [if_neg h0.1, if_neg h0.2]
        have ihh : FunctionApp.pollAux env (i + 1) r = (.timeoutOrFailed, k + 1) := by
          apply ih r (i + 1) (by omega)
          · intro j hj
            have e : i + 1 + j = i + (j + 1) := by omega
            rw [e]
            exact hpre (j + 1) (by omega)
          · have e : i + 1 + k = i + (k + 1) := by omega
            rw [e]
            exact hfail
        simp [ihh]

/-- When some key-phrase call raises, the annotation loop aborts with a
phrase list that differs from the input only by key_phrases entries added to
phrases processed before the raise. -/
theorem annotatePhrases_raise (kp : Nat → CallOut (List String)) :
    ∀ (ps : List Phrase) (i : Nat), anyKeyPhraseRaise kp i ps = true →
      ∃ l, annotatePhrases kp i ps = .error l ∧ clearKeyPhrases l = clearKeyPhrases ps := by
  intro ps
  induction ps with
  | nil => intro i h; simp [anyKeyPhraseRaise] at h
  | cons p rest ih =>
    intro i h
    by_cases hb : isBlank p.display = true
    · rw [anyKeyPhraseRaise, if_pos hb] at h
      obtain ⟨l, hl, hc⟩ := ih i h
      refine ⟨{ p with keyPhrases := some [] } :: l, ?_, ?_⟩
      · rw [annotatePhrases, if_pos hb, hl]
      · simp [clearKeyPhrases] at hc ⊢
        exact hc
    · rw [anyKeyPhraseRaise, if_neg hb] at h
      cases hkp : kp i with
      | raises m =>
        refine ⟨p :: rest, ?_, rfl⟩
        rw [annotatePhrases, if_neg hb, hkp]
      | ok ks =>
        rw [hkp] at h
        obtain ⟨l, hl, hc⟩ := ih (i + 1) h
        refine ⟨{ p with keyPhrases := some ks } :: l, ?_, ?_⟩
        · rw [annotatePhrases, if_neg hb, hkp, hl]
        · simp [clearKeyPhrases] at hc ⊢
          exact hc
      | isError =>
        rw [hkp] at h
        obtain ⟨l, hl, hc⟩ := ih (i + 1) h
        refine ⟨{ p with keyPhrases := some [] } :: l, ?_, ?_⟩
        · rw [annotatePhrases, if_neg hb, hkp, hl]
        · simp [clearKeyPhrases] at hc ⊢
          exact hc

/-- When some enrichment call raises, the stage returns 200 with the
transcript dict, equal to the fetched transcript up to key_phrases entries
added before the raise. -/
theorem enrichStage_degraded (env : EnrichEnv) (t : Transcript)
    (h : enrichRaises env t = true) :
    ∃ l, enrichStage env t = ⟨200, .jsonTranscript ⟨l⟩⟩ ∧
      clearKeyPhrases l = clearKeyPhrases t.recognizedPhrases := by
  unfold enrichStage
  cases hc : env.ctor with
  | some m => exact ⟨t.recognizedPhrases, rfl, rfl⟩
  | none =>
    cases hsum : summaryOf env t with
    | error u => exact ⟨t.recognizedPhrases, rfl, rfl⟩
    | ok s =>
      unfold enrichRaises at h
      rw [hc, hsum] at h
      simp only [Option.isSome_none, Bool.false_or] at h
      obtain ⟨l, hl, hcl⟩ := annotatePhrases_raise env.keyPhraseCall t.recognizedPhrases 0 h
      rw [hl]
      exact ⟨l, rfl, hcl⟩

/-- Every function_app.py run either succeeds with status 200 or fails with
status 400 or 500 and a structured JSON error body. -/
theorem fnapp_cases (env : FunctionApp.Env) :
    (FunctionApp.upload_and_transcribe env).response.status = 200 ∨
      (((FunctionApp.upload_and_transcribe env).response.status = 400 ∨
        (FunctionApp.upload_and_transcribe env).response.status = 500) ∧
       (FunctionApp.upload_and_transcribe env).response.body.isJsonError = true) := by
  unfold FunctionApp.upload_and_transcribe
  split
  · right; exact ⟨Or.inr rfl, rfl⟩
  split
  · right; exact ⟨Or.inr rfl, rfl⟩
  split
  · right; exact ⟨Or.inl rfl, rfl⟩
  split
  · split
    · right; exact ⟨Or.inr rfl, rfl⟩
    split
    · right; exact ⟨Or.inr rfl, rfl⟩
    split
    · right; exact ⟨Or.inr rfl, rfl⟩
    split
    · right; exact ⟨Or.inr rfl, rfl⟩
    split
    · right; exact ⟨Or.inr rfl, rfl⟩
    · right; exact ⟨Or.inr rfl, rfl⟩
    · left
      unfold enrichStage
      split
      · rfl
      split
      · rfl
      split
      · rfl
      · rfl
  · right; exact ⟨Or.inl rfl, rfl⟩

/-
  Further fixtures for the claim theorems.
-/

/-- A function_app.py environment whose job immediately reports Failed with
an embedded error detail. -/
def failedDetailEnv : FunctionApp.Env := { fnBase with pollEnv := failedPollEnv (some "quota exceeded") }

/-- A function_app.py environment whose job immediately reports Failed with
no embedded error detail. -/
def failedNoDetailEnv : FunctionApp.Env := { fnBase with pollEnv := failedPollEnv none }

/-- A function_app.py environment whose uploaded file does not decode. -/
def envDecodeFail : FunctionApp.Env := { fnBase with decode := fun _ => false }

/-- A function_app.py environment for a request without a file field. -/
def envNoFile : FunctionApp.Env := { fnBase with file := none }

/-- A function_app.py environment whose job-creation call returns 400. -/
def envBadCreate : FunctionApp.Env := { fnBase with createStatus := 400, createText := "boom" }

/-- A two-phrase transcript as fetched from the content URL. -/
def t2 : Transcript := ⟨[⟨"hello", none⟩, ⟨"world", none⟩]⟩

/-- An enrichment environment whose first key-phrase call succeeds and whose
second raises. -/
def enrichBoom : EnrichEnv :=
  ⟨none, .ok "S", fun i => if i = 0 then .ok ["k"] else .raises "boom"⟩

/-- A function_app.py environment where transcription succeeds with t2 and
the second key-phrase call raises. -/
def envC2 : FunctionApp.Env := { fnBase with pollEnv := succeedPollEnv t2, enrich := enrichBoom }

/-- A file whose declared extension is not a supported container. -/
def xyzFile : UploadedFile := ⟨"a.xyz", [7]⟩

/-- A function_app.py environment given a decodable file with an unsupported
declared extension, whose job creation then fails. -/
def envXyz : FunctionApp.Env := { fnBase with file := some xyzFile, createStatus := 400, createText := "bad" }

/-- An app.py environment for a request without a file field. -/
def appNoFileEnv : App.Env := { appBase with file := none }

/-
  Claim theorems.
-/

/-- Claim C9. The signed access URL expiry (3600 s) strictly exceeds the
maximum polling window pollIntervalSeconds * maxPollCount (300 s). -/
theorem sas_expiry_exceeds_polling_window :
    pollIntervalSeconds * maxPollCount < sasExpirySeconds := by decide

/-- Claim C5. With the stages before the decode succeeding, a file whose
audio decode fails yields a 400 response with the JSON decode-error body,
and no blob upload, job submission or status poll is performed. -/
theorem decode_failure_400_no_upload (env : FunctionApp.Env) (f : UploadedFile)
    (h1 : env.envLoad = .ok ()) (h2 : env.ffmpegSetup = .ok ())
    (h3 : env.file = some f) (h4 : env.decode f.content = false) :
    (FunctionApp.upload_and_transcribe env).response =
      ⟨400, .jsonError FunctionApp.decodeErrorMsg⟩ ∧
    (FunctionApp.upload_and_transcribe env).effects = ⟨0, 0, 0⟩ := by
  constructor <;> simp [FunctionApp.upload_and_transcribe, h1, h2, h3, h4]

/-- Claim C5 witness: the theorem at a concrete environment. -/
theorem decode_failure_400_no_upload_witness :
    (envDecodeFail.envLoad = .ok () ∧ envDecodeFail.ffmpegSetup = .ok () ∧
     envDecodeFail.file = some okFile ∧ envDecodeFail.decode okFile.content = false) ∧
    ((FunctionApp.upload_and_transcribe envDecodeFail).response =
      ⟨400, .jsonError FunctionApp.decodeErrorMsg⟩ ∧
     (FunctionApp.upload_and_transcribe envDecodeFail).effects = ⟨0, 0, 0⟩) :=
  ⟨⟨rfl, rfl, rfl, rfl⟩, decode_failure_400_no_upload envDecodeFail okFile rfl rfl rfl rfl⟩

/-- Claim C8. With the stages before the job submission succeeding, a
job-creation response with a status other than 201 yields an immediate 500
JSON error; exactly one submission is made and no status poll occurs. -/
theorem creation_failure_500_no_polling (env : FunctionApp.Env) (f : UploadedFile)
    (h1 : env.envLoad = .ok ()) (h2 : env.ffmpegSetup = .ok ())
    (h3 : env.file = some f) (h4 : env.decode f.content = true)
    (h5 : env.blobUpload = .ok ()) (h6 : env.createRaises = none)
    (h7 : env.createStatus ≠ 201) :
    (FunctionApp.upload_and_transcribe env).response =
      ⟨500, .jsonError (FunctionApp.speechApiErrPre ++ env.createText)⟩ ∧
    (FunctionApp.upload_and_transcribe env).effects = ⟨1, 1, 0⟩ := by
  constructor <;> simp [FunctionApp.upload_and_transcribe, h1, h2, h3, h4, h5, h6, h7]

/-- Claim C8 witness: the theorem at a concrete environment. -/
theorem creation_failure_500_no_polling_witness :
    (envBadCreate.createRaises = none ∧ envBadCreate.createStatus ≠ 201) ∧
    ((FunctionApp.upload_and_transcribe envBadCreate).response =
      ⟨500, .jsonError (FunctionApp.speechApiErrPre ++ envBadCreate.createText)⟩ ∧
     (FunctionApp.upload_and_transcribe envBadCreate).effects = ⟨1, 1, 0⟩) :=
  ⟨⟨rfl, by decide⟩,
   creation_failure_500_no_polling envBadCreate okFile rfl rfl rfl rfl rfl rfl (by decide)⟩

/-- Claim C1 counterexample. app.py's poll loop (also named by the claim's
sources) has no iteration bound: on an all-Running status stream it is still
polling after 31 status requests, and still after 100, instead of stopping
at maxPollCount = 30 with a timeout error. -/
theorem app_poll_loop_unbounded :
    App.pollAux runningPollEnv 0 (maxPollCount + 1) = none ∧
    App.pollAux runningPollEnv 0 100 = none := by decide

/-- Claim C1 as amended. function_app.py's poll_for_stt_result, given any
status stream whose first maxPollCount responses are all non-terminal,
performs exactly maxPollCount (30) status requests and then stops, returning
None (surfaced by the handler as a 500 error). -/
theorem poll_bound_exhausted_returns_timeout (env : PollEnv)
    (h : ∀ i, i < maxPollCount → (env.step i).isNonTerminal = true) :
    FunctionApp.poll_for_stt_result env = (.timeoutOrFailed, maxPollCount) := by
  unfold FunctionApp.poll_for_stt_result
  apply pollAux_nonterminal
  intro j hj
  rw [Nat.zero_add]
  exact h j hj

/-- Claim C1 witness: the amended theorem at the all-Running stream. -/
theorem poll_bound_exhausted_returns_timeout_witness :
    (∀ i, i < maxPollCount → (runningPollEnv.step i).isNonTerminal = true) ∧
    FunctionApp.poll_for_stt_result runningPollEnv = (.timeoutOrFailed, maxPollCount) :=
  ⟨by decide, poll_bound_exhausted_returns_timeout runningPollEnv (by decide)⟩

/-- Claim C3 counterexample. The timeout outcome is not distinguishable from
the remote job reporting Failed: poll_for_stt_result returns None in both
cases, and the handler produces the identical 500 response for an exhausted
all-Running stream (fnBase) and for an immediately-Failed job. -/
theorem timeout_and_job_failure_conflated :
    (FunctionApp.poll_for_stt_result runningPollEnv).1 = .timeoutOrFailed ∧
    (FunctionApp.poll_for_stt_result (failedPollEnv none)).1 = .timeoutOrFailed ∧
    (FunctionApp.upload_and_transcribe fnBase).response =
      (FunctionApp.upload_and_transcribe failedNoDetailEnv).response := by decide

/-- Claim C3 as amended. A timeout (bound exhausted without a terminal
status) is reported as a 500 JSON error, never as a success: it is
distinguishable from success, though conflated with job failure. -/
theorem timeout_surfaces_as_500_error (env : FunctionApp.Env) (f : UploadedFile) (l : String)
    (h1 : env.envLoad = .ok ()) (h2 : env.ffmpegSetup = .ok ())
    (h3 : env.file = some f) (h4 : env.decode f.content = true)
    (h5 : env.blobUpload = .ok ()) (h6 : env.createRaises = none)
    (h7 : env.createStatus = 201) (h8 : env.location = some l)
    (hp : ∀ i, i < maxPollCount → (env.pollEnv.step i).isNonTerminal = true) :
    (FunctionApp.upload_and_transcribe env).response =
      ⟨500, .jsonError FunctionApp.sttTimeoutOrFailedMsg⟩ := by
  have hpoll : FunctionApp.poll_for_stt_result env.pollEnv = (.timeoutOrFailed, maxPollCount) :=
    poll_bound_exhausted_returns_timeout env.pollEnv hp
  simp [FunctionApp.upload_and_transcribe, h1, h2, h3, h4, h5, h6, h7, h8, hpoll]

/-- Claim C3 witness: the amended theorem at a concrete environment. -/
theorem timeout_surfaces_as_500_error_witness :
    (∀ i, i < maxPollCount → (fnBase.pollEnv.step i).isNonTerminal = true) ∧
    (FunctionApp.upload_and_transcribe fnBase).response =
      ⟨500, .jsonError FunctionApp.sttTimeoutOrFailedMsg⟩ :=
  ⟨by decide,
   timeout_surfaces_as_500_error fnBase okFile "loc" rfl rfl rfl rfl rfl rfl rfl rfl (by decide)⟩

/-- Claim C6 counterexample. A terminal Failed status carrying the embedded
error detail quota exceeded is not surfaced: the handler returns the generic
timeout-or-failure message, identical to the response when no detail is
present. -/
theorem failed_job_detail_not_surfaced :
    (FunctionApp.upload_and_transcribe failedDetailEnv).response =
      ⟨500, .jsonError FunctionApp.sttTimeoutOrFailedMsg⟩ ∧
    (FunctionApp.upload_and_transcribe failedDetailEnv).response =
      (FunctionApp.upload_and_transcribe failedNoDetailEnv).response := by decide

/-- Claim C6 as amended. When the k-th status response is terminal Failed
(after k non-terminal responses, k below the bound), the handler returns the
generic 500 timeout-or-failure message whatever the embedded error detail
is: the detail is never read and a fixed generic message is always used. -/
theorem failed_job_surfaces_generic_500 (env : FunctionApp.Env) (f : UploadedFile)
    (l : String) (k : Nat) (d : Option String)
    (h1 : env.envLoad = .ok ()) (h2 : env.ffmpegSetup = .ok ())
    (h3 : env.file = some f) (h4 : env.decode f.content = true)
    (h5 : env.blobUpload = .ok ()) (h6 : env.createRaises = none)
    (h7 : env.createStatus = 201) (h8 : env.location = some l)
    (hk : k < maxPollCount)
    (hpre : ∀ j, j < k → (env.pollEnv.step j).isNonTerminal = true)
    (hfail : env.pollEnv.step k = .status (some "Failed") d) :
    (FunctionApp.upload_and_transcribe env).response =
      ⟨500, .jsonError FunctionApp.sttTimeoutOrFailedMsg⟩ := by
  have hpoll : FunctionApp.poll_for_stt_result env.pollEnv = (.timeoutOrFailed, k + 1) := by
    unfold FunctionApp.poll_for_stt_result
    apply pollAux_failed env.pollEnv d k maxPollCount 0 hk
    · intro j hj
      rw [Nat.zero_add]
      exact hpre j hj
    · rw [Nat.zero_add]
      exact hfail
  simp [FunctionApp.upload_and_transcribe, h1, h2, h3, h4, h5, h6, h7, h8, hpoll]

/-- Claim C6 witness: the amended theorem at a concrete environment whose
job fails at once with an embedded detail. -/
theorem failed_job_surfaces_generic_500_witness :
    (failedDetailEnv.pollEnv.step 0 = .status (some "Failed") (some "quota exceeded") ∧
     0 < maxPollCount) ∧
    (FunctionApp.upload_and_transcribe failedDetailEnv).response =
      ⟨500, .jsonError FunctionApp.sttTimeoutOrFailedMsg⟩ :=
  ⟨⟨rfl, by decide⟩,
   failed_job_surfaces_generic_500 failedDetailEnv okFile "loc" 0 (some "quota exceeded")
     rfl rfl rfl rfl rfl rfl rfl rfl (by decide) (by intro j hj; omega) rfl⟩

/-- Claim C2 counterexample. Transcription succeeds with the two-phrase
transcript t2; the first key-phrase call succeeds and the second raises. The
handler returns 200, but the body is not the transcript as fetched: the
first phrase now carries a key_phrases entry written before the failure. -/
theorem enrichment_failure_body_mutated :
    (FunctionApp.upload_and_transcribe envC2).response.status = 200 ∧
    (FunctionApp.upload_and_transcribe envC2).response.body ≠ Body.jsonTranscript t2 ∧
    (FunctionApp.upload_and_transcribe envC2).response.body =
      Body.jsonTranscript ⟨[⟨"hello", some ["k"]⟩, ⟨"world", none⟩]⟩ := by decide

/-- Claim C2 as amended. When transcription succeeds and some enrichment
call raises, the handler returns status 200 and the transcript is never
discarded: the body is the transcript dict, equal to the transcript as
fetched except for key_phrases entries already added to phrases processed
before the failing call (dropping those entries recovers the fetched
transcript exactly). -/
theorem enrichment_raise_degrades_to_transcript (env : FunctionApp.Env) (f : UploadedFile)
    (l : String) (t : Transcript) (n : Nat)
    (h1 : env.envLoad = .ok ()) (h2 : env.ffmpegSetup = .ok ())
    (h3 : env.file = some f) (h4 : env.decode f.content = true)
    (h5 : env.blobUpload = .ok ()) (h6 : env.createRaises = none)
    (h7 : env.createStatus = 201) (h8 : env.location = some l)
    (hp : FunctionApp.poll_for_stt_result env.pollEnv = (.got t, n))
    (he : enrichRaises env.enrich t = true) :
    (FunctionApp.upload_and_transcribe env).response.status = 200 ∧
    ∃ ph, (FunctionApp.upload_and_transcribe env).response.body = .jsonTranscript ⟨ph⟩ ∧
      clearKeyPhrases ph = clearKeyPhrases t.recognizedPhrases := by
  obtain ⟨ph, hstage, hclear⟩ := enrichStage_degraded env.enrich t he
  have hrun : FunctionApp.upload_and_transcribe env = ⟨enrichStage env.enrich t, ⟨1, 1, n⟩⟩ := by
    simp [FunctionApp.upload_and_transcribe, h1, h2, h3, h4, h5, h6, h7, h8, hp]
  rw [hrun, hstage]
  exact ⟨rfl, ph, rfl, hclear⟩

/-- Claim C2 witness: the amended theorem at the concrete environment of the
counterexample. -/
theorem enrichment_raise_degrades_to_transcript_witness :
    (FunctionApp.poll_for_stt_result envC2.pollEnv = (.got t2, 1) ∧
     enrichRaises envC2.enrich t2 = true) ∧
    ((FunctionApp.upload_and_transcribe envC2).response.status = 200 ∧
     ∃ ph, (FunctionApp.upload_and_transcribe envC2).response.body = .jsonTranscript ⟨ph⟩ ∧
       clearKeyPhrases ph = clearKeyPhrases t2.recognizedPhrases) :=
  ⟨⟨by decide, by decide⟩,
   enrichment_raise_degrades_to_transcript envC2 okFile "loc" t2 1
     rfl rfl rfl rfl rfl rfl rfl rfl (by decide) (by decide)⟩

/-- Claim C4 counterexample. app.py (named by the claim's sources) returns a
plain-text body, not a JSON error object, on its missing-file error path. -/
theorem app_error_body_is_plain_text :
    App.upload_and_transcribe appNoFileEnv 0 = some ⟨400, .text "No file uploaded."⟩ ∧
    (Body.text "No file uploaded.").isJsonError = false := by decide

/-- Claim C4 as amended. In function_app.py every error outcome (any
response whose status is not 200) carries status 400 or 500 and a structured
JSON error body; app.py's error paths, by contrast, use plain text. -/
theorem fnapp_error_responses_are_json (env : FunctionApp.Env)
    (h : (FunctionApp.upload_and_transcribe env).response.status ≠ 200) :
    ((FunctionApp.upload_and_transcribe env).response.status = 400 ∨
     (FunctionApp.upload_and_transcribe env).response.status = 500) ∧
    (FunctionApp.upload_and_transcribe env).response.body.isJsonError = true := by
  rcases fnapp_cases env with h200 | hok
  · exact absurd h200 h
  · exact hok

/-- Claim C4 witness: the amended theorem at the missing-file environment. -/
theorem fnapp_error_responses_are_json_witness :
    (FunctionApp.upload_and_transcribe envNoFile).response.status ≠ 200 ∧
    (((FunctionApp.upload_and_transcribe envNoFile).response.status = 400 ∨
      (FunctionApp.upload_and_transcribe envNoFile).response.status = 500) ∧
     (FunctionApp.upload_and_transcribe envNoFile).response.body.isJsonError = true) :=
  ⟨by decide, fnapp_error_responses_are_json envNoFile (by decide)⟩

/-- Claim C7 counterexample. A file declaring the unsupported extension xyz
whose content nevertheless decodes is not rejected: the handler uploads the
blob and submits the job (network calls), and its response is not 400. -/
theorem unsupported_extension_not_rejected :
    extOf xyzFile.filename ∉ supportedExtensions ∧
    (FunctionApp.upload_and_transcribe envXyz).effects.blobUploads = 1 ∧
    (FunctionApp.upload_and_transcribe envXyz).effects.jobSubmissions = 1 ∧
    (FunctionApp.upload_and_transcribe envXyz).response.status ≠ 400 := by decide

/-- Claim C7 as amended. The handler performs no extension-based validation
at all: its result (response and effects) is independent of the declared
filename, for identical content. Rejection with 400 and no network call
happens only through the content decode (claim C5), never from the
extension. -/
theorem handler_ignores_declared_extension (env : FunctionApp.Env)
    (c : List Nat) (na nb : String) :
    FunctionApp.upload_and_transcribe { env with file := some ⟨na, c⟩ } =
      FunctionApp.upload_and_transcribe { env with file := some ⟨nb, c⟩ } := rfl

/-- Claim C10 counterexample. app.py's handler (named by the claim's
sources), on an environment whose status responses are all Running, has
produced no HttpResponse after 31 status polls, nor after 50: the poll loop
never reaches a return. -/
theorem app_handler_unresponsive_on_nonterminal :
    App.upload_and_transcribe appBase 31 = none ∧
    App.upload_and_transcribe appBase 50 = none := by decide

/-- Claim C10 as amended. function_app.py's handler returns a response with
status 200, 400 or 500 for every environment (no exception propagates);
app.py's handler never propagates an exception and every response it does
return has status 200, 400 or 500, but on an endless non-terminal status
stream it never returns. -/
theorem handlers_total_and_status_classified :
    (∀ env : FunctionApp.Env,
      (FunctionApp.upload_and_transcribe env).response.status = 200 ∨
      (FunctionApp.upload_and_transcribe env).response.status = 400 ∨
      (FunctionApp.upload_and_transcribe env).response.status = 500) ∧
    (∀ (env : App.Env) (fuel : Nat) (r : HttpResponse),
      App.upload_and_transcribe env fuel = some r →
      (r.status = 200 ∨ r.status = 400 ∨ r.status = 500)) := by
  constructor
  · intro env
    rcases fnapp_cases env with h | ⟨h, _⟩
    · exact Or.inl h
    · rcases h with h | h
      · exact Or.inr (Or.inl h)
      · exact Or.inr (Or.inr h)
  · intro env fuel r h
    unfold App.upload_and_transcribe at h
    split at h
    · simp only [Option.some.injEq] at h
      subst h
      simp
    split at h
    · simp only [Option.some.injEq] at h
      subst h
      simp
    split at h
    · simp only [Option.some.injEq] at h
      subst h
      simp
    split at h
    · simp only [Option.some.injEq] at h
      subst h
      simp
    split at h
    · simp only [Option.some.injEq] at h
      subst h
      simp
    split at h
    · simp at h
    · simp only [Option.some.injEq] at h
      subst h
      simp
    · simp only [Option.some.injEq] at h
      subst h
      simp
    · simp only [Option.some.injEq] at h
      subst h
      simp

/-- Claim C10 witness: the amended theorem at concrete environments. -/
theorem handlers_total_and_status_classified_witness :
    ((FunctionApp.upload_and_transcribe fnBase).response.status = 200 ∨
     (FunctionApp.upload_and_transcribe fnBase).response.status = 400 ∨
     (FunctionApp.upload_and_transcribe fnBase).response.status = 500) ∧
    ((400 : Nat) = 200 ∨ (400 : Nat) = 400 ∨ (400 : Nat) = 500) :=
  ⟨handlers_total_and_status_classified.1 fnBase,
   handlers_total_and_status_classified.2 appNoFileEnv 0
     ⟨400, .text "No file uploaded."⟩ (by decide)⟩
